import Mathlib

/-!
Verification development for the COTIZACION-AI resilient session client
(`src/main.py`).  The Python code is shallowly embedded: the CSV response
parser (`parsear_respuesta_csv`, lines 318-359) is translated into total
functions on `String`/`List String`, and the stateful network client
(`subir_archivo`, `crear_conversacion_y_enviar_mensaje`,
`eliminar_conversacion`, `intentar_procesamiento`, `procesar_consulta`,
lines 142-428) is modelled as functions from an explicit environment
describing the transport's behaviour (HTTP statuses, response bodies,
stream events) to a trace of observable actions plus a result.
Network and filesystem effects appear only as trace events supplied by the
environment; real time (`time.time`) is not modelled, `time.sleep` is kept
as a trace event since the spec speaks about the backoff schedule.
-/

namespace Cotizacion

/-- Embeds the Pydantic model `DocumentoData` (src/main.py lines 22-31):
every field is `Optional[str]` defaulting to `None`, except `igv : bool`
defaulting to `False`. -/
structure DocumentoData where
  moneda : Option String := none
  ruc : Option String := none
  proveedor : Option String := none
  codigo_factura : Option String := none
  fecha_emision : Option String := none
  forma_pago : Option String := none
  igv : Bool := false
  sub_total : Option String := none
  total : Option String := none
deriving Repr, DecidableEq

/-- `RUC_NETTALCO` constant (src/main.py line 54). -/
def RUC_NETTALCO : String := "20100064571"

/-- `MAX_INTENTOS` constant (src/main.py line 55). -/
def MAX_INTENTOS : Nat := 5

/-- `TIMEOUT_RESPUESTA` constant (src/main.py line 56). -/
def TIMEOUT_RESPUESTA : Nat := 120

/-- Python truthiness of an `Optional[str]`: `None` and `""` are falsy,
every other string is truthy. -/
def pythonTruthy : Option String → Bool
  | none => false
  | some s => decide (s ≠ "")

/-- The whitespace characters removed by Python's `str.strip()` (the
common four; the embedding does not model `\f`/`\v`, which cannot occur in
the answers the claims are about). -/
def isSpaceChar (c : Char) : Bool :=
  c = ' ' || c = '\t' || c = '\n' || c = '\r'

/-- `str.strip()` on the character list: drop leading and trailing
whitespace. -/
def trimChars (l : List Char) : List Char :=
  ((l.dropWhile isSpaceChar).reverse.dropWhile isSpaceChar).reverse

/-- Python `str.strip()`, structurally recursive so that concrete inputs
evaluate inside the kernel. -/
def pyStrip (s : String) : String :=
  String.mk (trimChars s.data)

/-- Python `str.lower()` (ASCII case folding, which covers every token the
parser compares against). -/
def pyLower (s : String) : String :=
  String.mk (s.data.map Char.toLower)

/-- Python `str.split(',')` on the character list: the list of
comma-separated groups, always nonempty (the empty string yields one empty
group, as in Python). -/
def splitCommas : List Char → List (List Char)
  | [] => [[]]
  | c :: rest =>
    match splitCommas rest with
    | [] => [[]]
    | g :: gs => if c = ',' then [] :: g :: gs else (c :: g) :: gs

/-- Python `str.split(',')`. -/
def pySplitComma (s : String) : List String :=
  (splitCommas s.data).map String.mk

/-- `raw_response.strip()` followed by `[p.strip() for p in raw_response.split(',')]`
(src/main.py lines 320-321). -/
def partsOf (s : String) : List String :=
  (pySplitComma (pyStrip s)).map pyStrip

/-- `partes.extend([None] * (9 - len(partes)))` guarded by `len(partes) < 9`
(src/main.py lines 323-325): the parts become optional values, right-padded
with `None` up to nine entries (truncated subtraction makes the guard
redundant, as in Python where a non-positive repetition yields `[]`). -/
def padParts (l : List String) : List (Option String) :=
  l.map some ++ List.replicate (9 - l.length) none

/-- One step of the comprehension
`[None if p and p.lower() == 'null' else p for p in partes]`
(src/main.py line 327). -/
def nullMap : Option String → Option String
  | none => none
  | some q => if q ≠ "" ∧ pyLower q = "null" then none else some q

/-- The padded, null-mapped parts list the parser indexes into. -/
def partesOf9 (l : List String) : List (Option String) :=
  (padParts l).map nullMap

/-- The padded part at position `j` before null-mapping (what `partes[j]`
held between lines 325 and 327 of src/main.py). -/
def rawPart (l : List String) (j : Nat) : Option String :=
  (padParts l).getD j none

/-- `partes[j]` after the null-mapping comprehension (src/main.py line 327). -/
def partAt (l : List String) (j : Nat) : Option String :=
  (partesOf9 l).getD j none

/-- `ruc = partes[1]; if ruc == RUC_NETTALCO: ruc = None`
(src/main.py lines 329-332). -/
def rucField (l : List String) : Option String :=
  if partAt l 1 = some RUC_NETTALCO then none else partAt l 1

/-- The truthy tokens accepted for the IGV flag (src/main.py line 337). -/
def truthyTokens : List String :=
  ["true", "yes", "si", "s", "1", "verdadero"]

/-- `igv_value = False; if partes[6]: igv_value = partes[6].lower() in [...]`
(src/main.py lines 334-337). -/
def igvField (l : List String) : Bool :=
  if pythonTruthy (partAt l 6) then
    truthyTokens.contains (pyLower ((partAt l 6).getD ""))
  else
    false

/-- `sub_total = partes[7]; total = partes[8];
if not igv_value and sub_total and not total: total = sub_total`
(src/main.py lines 339-343). -/
def totalField (l : List String) : Option String :=
  if !igvField l && pythonTruthy (partAt l 7) && !pythonTruthy (partAt l 8) then
    partAt l 7
  else
    partAt l 8

/-- Construction of the `DocumentoData` record from the parts list
(src/main.py lines 329-355). -/
def buildRecord (l : List String) : DocumentoData :=
  { moneda := partAt l 0
    ruc := rucField l
    proveedor := partAt l 2
    codigo_factura := partAt l 3
    fecha_emision := partAt l 4
    forma_pago := partAt l 5
    igv := igvField l
    sub_total := partAt l 7
    total := totalField l }

/-- `parsear_respuesta_csv` (src/main.py lines 318-359).  For a string
argument the body raises no exception (split, strip, list indexing after
padding, and the model constructor are all total here), so the
`except`-handler returning `DocumentoData()` is never taken and the
function is the composition of splitting and record construction. -/
def parsear_respuesta_csv (s : String) : DocumentoData :=
  buildRecord (partsOf s)

/-- Decides whether a padded part is mapped to an absent value by line 327
of src/main.py: the padding `None`s stay absent, and a string part becomes
absent exactly when it is nonempty and lowercases to the null token
(an empty string fails the truthiness test and is kept). -/
def isNullPart : Option String → Bool
  | none => true
  | some q => decide (q ≠ "" ∧ pyLower q = "null")

/-! ## Session client: transport environment and trace semantics -/

/-- Observable actions of one `procesar_consulta` run: the network calls
issued by the session (upload POST, conversation-create POST, completion
POST, conversation DELETE), the attempt-header log line
`INTENTO {intento}/{MAX_INTENTOS}` of src/main.py line 397, and the
`time.sleep` pauses. -/
inductive Event where
  | logIntento (n : Nat)
  | uploadCall (url : String)
  | createCall (url : String)
  | sendCall (url : String)
  | deleteCall (url : String) (conversationId : String)
  | sleepEv (secs : Nat)
deriving Repr, DecidableEq

/-- Python f-string interpolation of an `Optional[str]`: `None` renders as
the literal text `None`. -/
def pyStr : Option String → String
  | none => "None"
  | some s => s

/-- Transport behaviour for one `subir_archivo` call: whether
`open(archivo_path)` succeeds, the HTTP status of the upload POST, and the
`file_uuid` field of the 200-response JSON body (absent when the key is
missing). -/
structure UploadEnv where
  fileReadable : Bool
  status : Nat
  file_uuid : Option String
deriving Repr, DecidableEq

/-- `subir_archivo` (src/main.py lines 142-175): if the file cannot be
opened, the exception handler returns `None` with no network call; else one
upload POST is issued against the organization-scoped URL and the result is
the body's `file_uuid` on HTTP 200 and `None` on any other status. -/
def subir_archivo (org : Option String) (env : UploadEnv) :
    List Event × Option String :=
  let url := "https://claude.ai/api/" ++ pyStr org ++ "/upload"
  if env.fileReadable then
    ([Event.uploadCall url], if env.status = 200 then env.file_uuid else none)
  else
    ([], none)

/-- One decoded line of the server-sent event stream, as the per-line
handling of src/main.py lines 257-277 distinguishes them: falsy lines,
lines without the `data:` prefix, data payloads that fail `json.loads`,
`content_block_delta` frames carrying a delta type and text, frames of any
other type, and the `message_stop` sentinel. -/
inductive Line where
  | empty
  | nonData (s : String)
  | badJson
  | delta (deltaType : String) (text : String)
  | otherType (t : String)
  | messageStop
deriving Repr, DecidableEq

/-- How the iteration over `response.iter_lines()` ends when no
`message_stop` frame was reached: a clean end of stream, a read timeout
(`requests.exceptions.Timeout`), or another connection exception. -/
inductive StreamEnd where
  | eof
  | timeoutErr
  | connectionErr
deriving Repr, DecidableEq

/-- The stream-consumption loop of src/main.py lines 257-277: fold over the
lines, appending each `text_delta` fragment to the accumulator in arrival
order, skipping everything else, and stopping at `message_stop`.  Returns
the accumulated text and whether `message_stop` was reached. -/
def consumeLines : List Line → String → String × Bool
  | [], acc => (acc, false)
  | l :: rest, acc =>
    match l with
    | Line.messageStop => (acc, true)
    | Line.delta dt t =>
        consumeLines rest (acc ++ (if dt = "text_delta" then t else ""))
    | _ => consumeLines rest acc

/-- Transport behaviour for one `crear_conversacion_y_enviar_mensaje` call:
status and body uuid of the create POST, status of the completion POST, the
decoded stream lines actually received, and how the stream read ended when
`message_stop` was not among them. -/
structure ConvEnv where
  createStatus : Nat
  createUuid : Option String
  sendStatus : Nat
  lines : List Line
  streamEnd : StreamEnd
deriving Repr, DecidableEq

/-- `crear_conversacion_y_enviar_mensaje` (src/main.py lines 177-292),
returning (trace, conversation_id, text):
a non-201 create returns `(None, None)`; otherwise the conversation id is
the create body's uuid, a 1-second settle pause precedes the completion
POST, a non-200 completion returns `(conversation_id, None)`, and the
stream is consumed by `consumeLines`.  If `message_stop` was reached or the
stream ended cleanly, the stripped accumulated text is returned when the
accumulator is nonempty (else `None`); a timeout or connection exception is
caught by the handlers of lines 287-292 which return
`(conversation_id, None)`, discarding the accumulator. -/
def crear_conversacion_y_enviar_mensaje (org : Option String) (env : ConvEnv) :
    List Event × Option String × Option String :=
  let createUrl :=
    "https://claude.ai/api/organizations/" ++ pyStr org ++ "/chat_conversations"
  if env.createStatus ≠ 201 then
    ([Event.createCall createUrl], none, none)
  else
    let conversation_id := env.createUuid
    let completionUrl :=
      "https://claude.ai/api/organizations/" ++ pyStr org ++
        "/chat_conversations/" ++ pyStr conversation_id ++ "/completion"
    let tr := [Event.createCall createUrl, Event.sleepEv 1,
               Event.sendCall completionUrl]
    if env.sendStatus ≠ 200 then
      (tr, conversation_id, none)
    else
      let r := consumeLines env.lines ""
      if r.2 = true ∨ env.streamEnd = StreamEnd.eof then
        (tr, conversation_id, if r.1 = "" then none else some (pyStrip r.1))
      else
        (tr, conversation_id, none)

/-- Transport behaviour for one `eliminar_conversacion` call. -/
structure DeleteEnv where
  status : Nat
deriving Repr, DecidableEq

/-- `eliminar_conversacion` (src/main.py lines 294-316): a falsy id returns
`False` with no network call; otherwise one DELETE is issued and HTTP 204
means success, anything else `False`. -/
def eliminar_conversacion (org : Option String) (conversation_id : Option String)
    (env : DeleteEnv) : List Event × Bool :=
  if pythonTruthy conversation_id then
    let url :=
      "https://claude.ai/api/organizations/" ++ pyStr org ++
        "/chat_conversations/" ++ pyStr conversation_id
    ([Event.deleteCall url (pyStr conversation_id)], env.status = 204)
  else
    ([], false)

/-- Transport behaviour for one attempt of the retry loop. -/
structure AttemptEnv where
  upload : UploadEnv
  conv : ConvEnv
  deleteEnv : DeleteEnv
deriving Repr, DecidableEq

/-- `intentar_procesamiento` (src/main.py lines 361-385), returning
(trace, outcome).  A falsy upload handle raises `Error subiendo archivo`
before the settle sleep; a falsy response text raises `Sin respuesta
valida`.  Crucially, the conversation id bound inside this function is NOT
part of a raised exception: on the error path it is lost to the caller,
exactly as in the Python source where the local `conversation_id` never
escapes the raising frame. -/
def intentar_procesamiento (org : Option String) (env : AttemptEnv) :
    List Event × Except String (Option String × DocumentoData) :=
  let r := subir_archivo org env.upload
  if pythonTruthy r.2 then
    let c := crear_conversacion_y_enviar_mensaje org env.conv
    if pythonTruthy c.2.2 then
      (r.1 ++ Event.sleepEv 1 :: c.1,
       Except.ok (c.2.1, parsear_respuesta_csv ((c.2.2).getD "")))
    else
      (r.1 ++ Event.sleepEv 1 :: c.1, Except.error "Sin respuesta valida")
  else
    (r.1, Except.error "Error subiendo archivo")

/-- The `for intento in range(1, MAX_INTENTOS + 1)` loop of
`procesar_consulta` (src/main.py lines 392-428), with `fuel` the number of
remaining iterations.  `conversation_id` is reset to `None` at the top of
each iteration (line 393) and is rebound only by a fully successful
attempt, which returns immediately; the `except` branch therefore always
sees `None`, and its `if conversation_id:` cleanup (lines 414-419) is
mirrored here verbatim even though it can never fire. -/
def procesar_loop (org : Option String) (envs : Nat → AttemptEnv) :
    Nat → Nat → List Event × Except String (DocumentoData × Nat)
  | 0, _ => ([], Except.error "sin intentos restantes")
  | fuel + 1, intento =>
    let a := intentar_procesamiento org (envs intento)
    match a.2 with
    | Except.ok r =>
      let d :=
        if pythonTruthy r.1 then
          eliminar_conversacion org r.1 (envs intento).deleteEnv
        else ([], false)
      (Event.logIntento intento :: (a.1 ++ d.1), Except.ok (r.2, intento))
    | Except.error e =>
      let conversation_id : Option String := none
      let d :=
        if pythonTruthy conversation_id then
          eliminar_conversacion org conversation_id (envs intento).deleteEnv
        else ([], false)
      if intento < MAX_INTENTOS then
        let rest := procesar_loop org envs fuel (intento + 1)
        (Event.logIntento intento :: (a.1 ++ d.1 ++ Event.sleepEv 3 :: rest.1),
         rest.2)
      else
        (Event.logIntento intento :: (a.1 ++ d.1),
         Except.error ("Fallo despues de " ++ toString MAX_INTENTOS ++
           " intentos. Ultimo error: " ++ e))

/-- Number of DELETE calls issued for a given conversation id in a trace. -/
def deletesFor (tr : List Event) (cid : String) : Nat :=
  tr.countP (fun e =>
    match e with
    | Event.deleteCall _ c => decide (c = cid)
    | _ => false)

/-- Number of conversation-create POSTs in a trace. -/
def createsIn (tr : List Event) : Nat :=
  tr.countP (fun e =>
    match e with
    | Event.createCall _ => true
    | _ => false)

/-- `procesar_consulta` (src/main.py lines 387-428): up to `MAX_INTENTOS`
attempts starting at attempt index 1, a fixed 3-second backoff between
consecutive attempts, and a terminal error carrying the last failure after
the final attempt.  The elapsed wall-clock time of the Python return value
is not modelled; the successful record and the 1-based attempt index are. -/
def procesar_consulta (org : Option String) (envs : Nat → AttemptEnv) :
    List Event × Except String (DocumentoData × Nat) :=
  procesar_loop org envs MAX_INTENTOS 1

/-! ## Helper lemmas about the parts list -/

theorem rawPart_eq (l : List String) (j : Nat) : rawPart l j = l[j]? := by
  unfold rawPart padParts
  rw [List.getD_eq_getElem?_getD]
  by_cases h : j < l.length
  · rw [List.getElem?_append_left (by simpa using h), List.getElem?_map,
      List.getElem?_eq_getElem h]
    simp [List.getElem?_eq_getElem h]
  · have h' : l.length ≤ j := Nat.le_of_not_lt h
    rw [List.getElem?_append_right (by simpa using h'), List.getElem?_replicate,
      List.getElem?_eq_none h']
    split <;> simp

theorem partAt_eq (l : List String) (j : Nat) : partAt l j = nullMap l[j]? := by
  unfold partAt partesOf9
  rw [List.getD_eq_getElem?_getD, List.getElem?_map]
  have h := rawPart_eq l j
  unfold rawPart at h
  rw [List.getD_eq_getElem?_getD] at h
  rw [show l[j]? = (padParts l)[j]?.getD none from h.symm]
  cases hp : (padParts l)[j]? with
  | none => simp [nullMap]
  | some v => simp

theorem partAt_of_len_le {l : List String} {j : Nat} (h : l.length ≤ j) :
    partAt l j = none := by
  rw [partAt_eq, List.getElem?_eq_none h]
  rfl

theorem nullMap_eq_none_iff (p : Option String) :
    nullMap p = none ↔ isNullPart p = true := by
  cases p with
  | none => simp [nullMap, isNullPart]
  | some q =>
    simp only [nullMap, isNullPart, decide_eq_true_eq]
    split <;> simp_all

theorem partAt_take (l : List String) (j : Nat) (h : j < 9) :
    partAt (l.take 9) j = partAt l j := by
  rw [partAt_eq, partAt_eq, List.getElem?_take_of_lt h]

theorem partAt_absent_iff (l : List String) (j : Nat) :
    partAt l j = none ↔ isNullPart (rawPart l j) = true := by
  rw [partAt_eq, rawPart_eq]
  exact nullMap_eq_none_iff _

theorem partAt_of_raw_empty {l : List String} {j : Nat}
    (h : rawPart l j = some "") : partAt l j = some "" := by
  rw [partAt_eq, ← rawPart_eq, h]
  simp [nullMap]

/-- Positional absence of the record's fields: position 6 is the boolean
IGV flag, whose defensive default is `false`. -/
def fieldAbsent (d : DocumentoData) : Nat → Prop
  | 0 => d.moneda = none
  | 1 => d.ruc = none
  | 2 => d.proveedor = none
  | 3 => d.codigo_factura = none
  | 4 => d.fecha_emision = none
  | 5 => d.forma_pago = none
  | 6 => d.igv = false
  | 7 => d.sub_total = none
  | 8 => d.total = none
  | _ => True

/-- Record projections of the parser output, proved once so claim proofs
rewrite with them instead of repeating the definitional unfolding. -/
theorem parsear_moneda (s : String) :
    (parsear_respuesta_csv s).moneda = partAt (partsOf s) 0 := rfl

theorem parsear_ruc (s : String) :
    (parsear_respuesta_csv s).ruc = rucField (partsOf s) := rfl

theorem parsear_proveedor (s : String) :
    (parsear_respuesta_csv s).proveedor = partAt (partsOf s) 2 := rfl

theorem parsear_codigo_factura (s : String) :
    (parsear_respuesta_csv s).codigo_factura = partAt (partsOf s) 3 := rfl

theorem parsear_fecha_emision (s : String) :
    (parsear_respuesta_csv s).fecha_emision = partAt (partsOf s) 4 := rfl

theorem parsear_forma_pago (s : String) :
    (parsear_respuesta_csv s).forma_pago = partAt (partsOf s) 5 := rfl

theorem parsear_igv (s : String) :
    (parsear_respuesta_csv s).igv = igvField (partsOf s) := rfl

theorem parsear_sub_total (s : String) :
    (parsear_respuesta_csv s).sub_total = partAt (partsOf s) 7 := rfl

theorem parsear_total (s : String) :
    (parsear_respuesta_csv s).total = totalField (partsOf s) := rfl

theorem totalField_of_guard_true {l : List String}
    (hI : igvField l = false) (hS : pythonTruthy (partAt l 7) = true)
    (hT : pythonTruthy (partAt l 8) = false) :
    totalField l = partAt l 7 := by
  unfold totalField
  rw [hI, hS, hT]
  simp

theorem totalField_of_total_truthy {l : List String}
    (hT : pythonTruthy (partAt l 8) = true) :
    totalField l = partAt l 8 := by
  unfold totalField
  rw [hT]
  simp

/-! ## Parser claims -/

/-- C5, counterexample: in the answer
`SOLES,null,ACME,F001,01/01/2026,Contado,False,100.00,` the total field is
present as the empty string (the 9th part after trimming, not the null
token), yet the parser recomputes it to the subtotal `100.00` instead of
keeping it as given, refuting the claim that a present total is kept. -/
theorem C5_total_present_not_kept :
    rawPart (partsOf "SOLES,null,ACME,F001,01/01/2026,Contado,False,100.00,") 8
      = some ""
    ∧ isNullPart (some "") = false
    ∧ (parsear_respuesta_csv
        "SOLES,null,ACME,F001,01/01/2026,Contado,False,100.00,").total
      = some "100.00"
    ∧ some "100.00" ≠ (some "" : Option String) := by
  refine ⟨by decide, by decide, by decide, by decide⟩

/-- C5, amended: when the tax-inclusion flag is false, the subtotal is
present and non-empty, and the total is absent or empty (Python-falsy), the
total is set to the subtotal string exactly; when the total is present and
non-empty it is kept as given, not recomputed. -/
theorem C5_total_backfill (s : String) :
    ((parsear_respuesta_csv s).igv = false →
      pythonTruthy ((parsear_respuesta_csv s).sub_total) = true →
      pythonTruthy (partAt (partsOf s) 8) = false →
      (parsear_respuesta_csv s).total = (parsear_respuesta_csv s).sub_total)
    ∧ (pythonTruthy (partAt (partsOf s) 8) = true →
      (parsear_respuesta_csv s).total = partAt (partsOf s) 8) := by
  constructor
  · intro hI hS hT
    rw [parsear_igv] at hI
    rw [parsear_sub_total] at hS
    rw [parsear_total, parsear_sub_total]
    exact totalField_of_guard_true hI hS hT
  · intro hT
    rw [parsear_total]
    exact totalField_of_total_truthy hT

theorem C5_total_backfill_witness :
    (parsear_respuesta_csv "SOLES,123,A,B,C,D,False,500.00,null").total
      = some "500.00" := by
  have h := (C5_total_backfill "SOLES,123,A,B,C,D,False,500.00,null").1
    (by decide) (by decide) (by decide)
  exact h.trans (by decide)

/-- C6, counterexample: the eight-part answer `a,b,c,d,e,f,g,100` has its
missing ninth field (the total) backfilled from the subtotal rather than
left absent, refuting the claim that all missing trailing fields of a short
answer are absent in the resulting record. -/
theorem C6_short_total_backfilled :
    (partsOf "a,b,c,d,e,f,g,100").length = 8
    ∧ (parsear_respuesta_csv "a,b,c,d,e,f,g,100").total = some "100"
    ∧ (parsear_respuesta_csv "a,b,c,d,e,f,g,100").total ≠ none := by
  refine ⟨by decide, by decide, by decide⟩

/-- C6, amended: the parser is a total function (never raising), and for an
input with fewer than nine comma-separated parts every missing trailing
field is absent in the record, except that the padded-in total may instead
equal the subtotal (the backfill of lines 342-343 of src/main.py fires when
exactly eight parts are present, the tax flag coerces to false and the
subtotal part is truthy). -/
theorem C6_short_answers (s : String) (j : Nat) (hj : j < 9)
    (h : (partsOf s).length ≤ j) :
    fieldAbsent (parsear_respuesta_csv s) j
    ∨ (j = 8 ∧ (parsear_respuesta_csv s).total
        = (parsear_respuesta_csv s).sub_total) := by
  have hcase : j = 0 ∨ j = 1 ∨ j = 2 ∨ j = 3 ∨ j = 4 ∨ j = 5 ∨ j = 6
      ∨ j = 7 ∨ j = 8 := by omega
  rcases hcase with rfl | rfl | rfl | rfl | rfl | rfl | rfl | rfl | rfl
  · exact Or.inl ((parsear_moneda s).trans (partAt_of_len_le h))
  · refine Or.inl ?_
    show (parsear_respuesta_csv s).ruc = none
    rw [parsear_ruc]
    unfold rucField
    rw [partAt_of_len_le h]
    simp
  · exact Or.inl ((parsear_proveedor s).trans (partAt_of_len_le h))
  · exact Or.inl ((parsear_codigo_factura s).trans (partAt_of_len_le h))
  · exact Or.inl ((parsear_fecha_emision s).trans (partAt_of_len_le h))
  · exact Or.inl ((parsear_forma_pago s).trans (partAt_of_len_le h))
  · refine Or.inl ?_
    show (parsear_respuesta_csv s).igv = false
    rw [parsear_igv]
    unfold igvField
    rw [partAt_of_len_le h]
    simp [pythonTruthy]
  · exact Or.inl ((parsear_sub_total s).trans (partAt_of_len_le h))
  · have h8 : partAt (partsOf s) 8 = none := partAt_of_len_le h
    cases hg : !igvField (partsOf s) && pythonTruthy (partAt (partsOf s) 7)
        && !pythonTruthy (partAt (partsOf s) 8) with
    | true =>
      refine Or.inr ⟨rfl, ?_⟩
      rw [parsear_total, parsear_sub_total]
      unfold totalField
      rw [hg]
      simp
    | false =>
      refine Or.inl ?_
      show (parsear_respuesta_csv s).total = none
      rw [parsear_total]
      unfold totalField
      rw [hg]
      simpa using h8

theorem C6_short_answers_witness :
    fieldAbsent (parsear_respuesta_csv "SOLES") 5
    ∨ (5 = 8 ∧ (parsear_respuesta_csv "SOLES").total
        = (parsear_respuesta_csv "SOLES").sub_total) :=
  C6_short_answers "SOLES" 5 (by norm_num) (by decide)

/-- C7: whenever the second trimmed comma-separated part of the answer
equals the operator's own tax id `20100064571`, the record's `ruc` field is
absent, whatever the other parts hold. -/
theorem C7_own_ruc_absent (s : String)
    (h : (partsOf s)[1]? = some RUC_NETTALCO) :
    (parsear_respuesta_csv s).ruc = none := by
  have hp : partAt (partsOf s) 1 = some RUC_NETTALCO := by
    rw [partAt_eq, h]
    decide
  rw [parsear_ruc]
  unfold rucField
  rw [hp]
  simp

theorem C7_own_ruc_absent_witness :
    (parsear_respuesta_csv
      "SOLES,20100064571,ACME S.A.C.,F001-1,01/01/2026,Contado,True,100.00,118.00").ruc
      = none :=
  C7_own_ruc_absent _ (by decide)

/-- C8: the record's IGV flag is true exactly when the seventh trimmed
part, lowercased, is one of `true`, `yes`, `si`, `s`, `1`, `verdadero`;
for every other value of that part, including a missing seventh part, the
flag is false. -/
theorem C8_igv_coercion (s : String) :
    (parsear_respuesta_csv s).igv =
      (match (partsOf s)[6]? with
       | some p => truthyTokens.contains (pyLower p)
       | none => false) := by
  rw [parsear_igv]
  cases h6 : (partsOf s)[6]? with
  | none =>
    show igvField (partsOf s) = false
    unfold igvField
    rw [partAt_eq, h6]
    simp [nullMap, pythonTruthy]
  | some p =>
    show igvField (partsOf s) = truthyTokens.contains (pyLower p)
    by_cases he : p = ""
    · subst he
      unfold igvField
      rw [partAt_eq, h6]
      decide
    · by_cases hn : pyLower p = "null"
      · unfold igvField
        rw [partAt_eq, h6]
        have hm : nullMap (some p) = none := by
          simp only [nullMap]
          rw [if_pos ⟨he, hn⟩]
        rw [hm, hn]
        decide
      · unfold igvField
        rw [partAt_eq, h6]
        have hm : nullMap (some p) = some p := by
          simp only [nullMap]
          rw [if_neg]
          intro hand
          exact hn hand.2
        rw [hm]
        simp [pythonTruthy, he]

/-- C9: the parser builds the record from the first nine trimmed parts in
positional order and ignores every later part; in particular an extra comma
inside the counterparty-name text shifts every later field one position to
the right and drops the last part, as the concrete ten-part answer shows. -/
theorem C9_first_nine_parts :
    (∀ s : String, parsear_respuesta_csv s = buildRecord ((partsOf s).take 9))
    ∧ parsear_respuesta_csv
        "SOLES,20190143806,MECANICA INDUSTRIAL LIRA, S.A.C.,F001-123,10/01/2026,Credito,True,120.00,141.60"
      = { moneda := some "SOLES", ruc := some "20190143806",
          proveedor := some "MECANICA INDUSTRIAL LIRA",
          codigo_factura := some "S.A.C.", fecha_emision := some "F001-123",
          forma_pago := some "10/01/2026", igv := false,
          sub_total := some "True", total := some "120.00" } := by
  constructor
  · intro s
    have h : ∀ jj : Nat, jj < 9 →
        partAt ((partsOf s).take 9) jj = partAt (partsOf s) jj :=
      fun jj hjj => partAt_take _ jj hjj
    have hig : igvField ((partsOf s).take 9) = igvField (partsOf s) := by
      unfold igvField
      rw [h 6 (by norm_num)]
    show buildRecord (partsOf s) = buildRecord ((partsOf s).take 9)
    unfold buildRecord rucField igvField totalField
    rw [hig, h 0 (by norm_num), h 1 (by norm_num), h 2 (by norm_num),
      h 3 (by norm_num), h 4 (by norm_num), h 5 (by norm_num),
      h 6 (by norm_num), h 7 (by norm_num), h 8 (by norm_num)]
  · decide

/-- C10: for the plain positional fields only the null token or
right-padding yields an absent value (an empty part is stored as the empty
string, also in the `ruc` position), while the truthiness-based steps treat
the empty string like an absent value: an empty tax-inclusion part coerces
the flag to false, and an empty total is backfilled from a truthy subtotal
when the flag is false. -/
theorem C10_empty_string_fields (s : String) :
    ((parsear_respuesta_csv s).moneda = none
      ↔ isNullPart (rawPart (partsOf s) 0) = true)
    ∧ ((parsear_respuesta_csv s).proveedor = none
      ↔ isNullPart (rawPart (partsOf s) 2) = true)
    ∧ ((parsear_respuesta_csv s).codigo_factura = none
      ↔ isNullPart (rawPart (partsOf s) 3) = true)
    ∧ ((parsear_respuesta_csv s).fecha_emision = none
      ↔ isNullPart (rawPart (partsOf s) 4) = true)
    ∧ ((parsear_respuesta_csv s).forma_pago = none
      ↔ isNullPart (rawPart (partsOf s) 5) = true)
    ∧ ((parsear_respuesta_csv s).sub_total = none
      ↔ isNullPart (rawPart (partsOf s) 7) = true)
    ∧ (rawPart (partsOf s) 0 = some "" →
        (parsear_respuesta_csv s).moneda = some "")
    ∧ (rawPart (partsOf s) 1 = some "" →
        (parsear_respuesta_csv s).ruc = some "")
    ∧ (rawPart (partsOf s) 6 = some "" →
        (parsear_respuesta_csv s).igv = false)
    ∧ (rawPart (partsOf s) 8 = some "" →
        (parsear_respuesta_csv s).igv = false →
        pythonTruthy ((parsear_respuesta_csv s).sub_total) = true →
        (parsear_respuesta_csv s).total = (parsear_respuesta_csv s).sub_total) := by
  refine ⟨?_, ?_, ?_, ?_, ?_, ?_, ?_, ?_, ?_, ?_⟩
  · rw [parsear_moneda]
    exact partAt_absent_iff _ 0
  · rw [parsear_proveedor]
    exact partAt_absent_iff _ 2
  · rw [parsear_codigo_factura]
    exact partAt_absent_iff _ 3
  · rw [parsear_fecha_emision]
    exact partAt_absent_iff _ 4
  · rw [parsear_forma_pago]
    exact partAt_absent_iff _ 5
  · rw [parsear_sub_total]
    exact partAt_absent_iff _ 7
  · intro h
    rw [parsear_moneda]
    exact partAt_of_raw_empty h
  · intro h
    rw [parsear_ruc]
    unfold rucField
    rw [partAt_of_raw_empty h]
    rw [if_neg (by decide)]
  · intro h
    rw [parsear_igv]
    unfold igvField
    rw [partAt_of_raw_empty h]
    simp [pythonTruthy]
  · intro h8 hI hS
    rw [parsear_igv] at hI
    rw [parsear_sub_total] at hS
    rw [parsear_total, parsear_sub_total]
    have hT : pythonTruthy (partAt (partsOf s) 8) = false := by
      rw [partAt_of_raw_empty h8]
      decide
    exact totalField_of_guard_true hI hS hT

theorem C10_empty_string_fields_witness :
    (parsear_respuesta_csv "x,,a,b,c,d,,100.00,").ruc = some ""
    ∧ (parsear_respuesta_csv "x,,a,b,c,d,,100.00,").igv = false
    ∧ (parsear_respuesta_csv "x,,a,b,c,d,,100.00,").total
      = (parsear_respuesta_csv "x,,a,b,c,d,,100.00,").sub_total := by
  have h := C10_empty_string_fields "x,,a,b,c,d,,100.00,"
  refine ⟨h.2.2.2.2.2.2.2.1 (by decide),
    h.2.2.2.2.2.2.2.2.1 (by decide),
    h.2.2.2.2.2.2.2.2.2 (by decide) (h.2.2.2.2.2.2.2.2.1 (by decide)) (by decide)⟩

/-! ## Session claims -/

theorem intentar_of_upload_none {org : Option String} {env : AttemptEnv}
    (h : (subir_archivo org env.upload).2 = none) :
    intentar_procesamiento org env =
      ((subir_archivo org env.upload).1, Except.error "Error subiendo archivo") := by
  simp only [intentar_procesamiento]
  rw [h]
  simp [pythonTruthy]

theorem procesar_loop_error_step (org : Option String) (envs : Nat → AttemptEnv)
    (fuel intento : Nat) (e : String) (trU : List Event)
    (ha : intentar_procesamiento org (envs intento) = (trU, Except.error e))
    (hlt : intento < MAX_INTENTOS) :
    procesar_loop org envs (fuel + 1) intento =
      (Event.logIntento intento ::
        (trU ++ Event.sleepEv 3 :: (procesar_loop org envs fuel (intento + 1)).1),
       (procesar_loop org envs fuel (intento + 1)).2) := by
  simp only [procesar_loop]
  rw [ha]
  simp [pythonTruthy, hlt]

theorem procesar_loop_error_last (org : Option String) (envs : Nat → AttemptEnv)
    (fuel intento : Nat) (e : String) (trU : List Event)
    (ha : intentar_procesamiento org (envs intento) = (trU, Except.error e))
    (hge : ¬ intento < MAX_INTENTOS) :
    procesar_loop org envs (fuel + 1) intento =
      (Event.logIntento intento :: trU,
       Except.error ("Fallo despues de " ++ toString MAX_INTENTOS ++
         " intentos. Ultimo error: " ++ e)) := by
  simp only [procesar_loop]
  rw [ha]
  simp [pythonTruthy, hge]

/-- C4: against a transport whose upload always returns null,
`procesar_consulta` performs exactly the five logged attempts, sleeps the
fixed 3 seconds between consecutive attempts and not after the fifth, and
ends in the single terminal error naming the last failure. -/
theorem C4_retry_schedule (org : Option String) (envs : Nat → AttemptEnv)
    (h : ∀ i, (subir_archivo org (envs i).upload).2 = none) :
    procesar_consulta org envs =
      (Event.logIntento 1 :: (subir_archivo org (envs 1).upload).1 ++
        Event.sleepEv 3 :: Event.logIntento 2 :: (subir_archivo org (envs 2).upload).1 ++
        Event.sleepEv 3 :: Event.logIntento 3 :: (subir_archivo org (envs 3).upload).1 ++
        Event.sleepEv 3 :: Event.logIntento 4 :: (subir_archivo org (envs 4).upload).1 ++
        Event.sleepEv 3 :: Event.logIntento 5 :: (subir_archivo org (envs 5).upload).1,
       Except.error
         "Fallo despues de 5 intentos. Ultimo error: Error subiendo archivo") := by
  have hmsg : "Fallo despues de " ++ toString MAX_INTENTOS ++
      " intentos. Ultimo error: " ++ "Error subiendo archivo" =
      "Fallo despues de 5 intentos. Ultimo error: Error subiendo archivo" := by
    decide
  have ha : ∀ i, intentar_procesamiento org (envs i) =
      ((subir_archivo org (envs i).upload).1,
       Except.error "Error subiendo archivo") :=
    fun i => intentar_of_upload_none (h i)
  have e5 : procesar_loop org envs 1 5 =
      (Event.logIntento 5 :: (subir_archivo org (envs 5).upload).1,
       Except.error ("Fallo despues de " ++ toString MAX_INTENTOS ++
         " intentos. Ultimo error: " ++ "Error subiendo archivo")) :=
    procesar_loop_error_last org envs 0 5 _ _ (ha 5) (by decide)
  have e4 : procesar_loop org envs 2 4 =
      (Event.logIntento 4 :: ((subir_archivo org (envs 4).upload).1 ++
         Event.sleepEv 3 :: (procesar_loop org envs 1 5).1),
       (procesar_loop org envs 1 5).2) :=
    procesar_loop_error_step org envs 1 4 _ _ (ha 4) (by decide)
  have e3 : procesar_loop org envs 3 3 =
      (Event.logIntento 3 :: ((subir_archivo org (envs 3).upload).1 ++
         Event.sleepEv 3 :: (procesar_loop org envs 2 4).1),
       (procesar_loop org envs 2 4).2) :=
    procesar_loop_error_step org envs 2 3 _ _ (ha 3) (by decide)
  have e2 : procesar_loop org envs 4 2 =
      (Event.logIntento 2 :: ((subir_archivo org (envs 2).upload).1 ++
         Event.sleepEv 3 :: (procesar_loop org envs 3 3).1),
       (procesar_loop org envs 3 3).2) :=
    procesar_loop_error_step org envs 3 2 _ _ (ha 2) (by decide)
  have e1 : procesar_loop org envs 5 1 =
      (Event.logIntento 1 :: ((subir_archivo org (envs 1).upload).1 ++
         Event.sleepEv 3 :: (procesar_loop org envs 4 2).1),
       (procesar_loop org envs 4 2).2) :=
    procesar_loop_error_step org envs 4 1 _ _ (ha 1) (by decide)
  show procesar_loop org envs 5 1 = _
  rw [e1, e2, e3, e4, e5, hmsg]
  simp

/-- Transport of one attempt that fails at the upload step: the file opens,
but the upload POST answers HTTP 500. -/
def envUploadFail : AttemptEnv :=
  { upload := { fileReadable := true, status := 500, file_uuid := none }
    conv := { createStatus := 201, createUuid := some "cX", sendStatus := 200,
              lines := [], streamEnd := StreamEnd.eof }
    deleteEnv := { status := 204 } }

theorem C4_retry_schedule_witness :
    (procesar_consulta (some "org1") (fun _ => envUploadFail)).2 =
      Except.error
        "Fallo despues de 5 intentos. Ultimo error: Error subiendo archivo" := by
  rw [C4_retry_schedule (some "org1") (fun _ => envUploadFail) (fun i => rfl)]

/-- Transport of one attempt in which the upload succeeds, the conversation
c1 is created (HTTP 201) and the completion returns 200, but the stream
ends cleanly with no text before any message_stop: the attempt fails with
`Sin respuesta valida` after the conversation id was obtained. -/
def envConvLeak : AttemptEnv :=
  { upload := { fileReadable := true, status := 200, file_uuid := some "f1" }
    conv := { createStatus := 201, createUuid := some "c1", sendStatus := 200,
              lines := [], streamEnd := StreamEnd.eof }
    deleteEnv := { status := 204 } }

/-- Run in which attempt 1 obtains conversation c1 and fails, and the
remaining attempts fail at the upload step. -/
def envsLeak : Nat → AttemptEnv :=
  fun i => if i = 1 then envConvLeak else envUploadFail

/-- Transport of a fully successful attempt: upload ok, conversation c1
created, stream delivers one text_delta and then message_stop. -/
def envSuccess : AttemptEnv :=
  { upload := { fileReadable := true, status := 200, file_uuid := some "f1" }
    conv := { createStatus := 201, createUuid := some "c1", sendStatus := 200,
              lines := [Line.delta "text_delta" "SOLES,null,A,B,C,D,False,1.00,1.00",
                        Line.messageStop],
              streamEnd := StreamEnd.eof }
    deleteEnv := { status := 204 } }

/-- C1, evaluation at the failing input: in the `envsLeak` run the first
attempt creates conversation c1 (the create POST is issued and the id is
returned to `intentar_procesamiento`), the attempt then fails, and the
whole run issues zero DELETE calls for c1 — the id never escapes the
raising frame and the failure-path cleanup of src/main.py lines 414-419
tests a variable that is always None there.  On the success path
(`envSuccess`) exactly one DELETE for c1 is issued, so the claimed
invariant holds only there. -/
theorem C1_failure_path_leaks_conversation :
    (crear_conversacion_y_enviar_mensaje (some "org1") envConvLeak.conv).2.1
      = some "c1"
    ∧ createsIn (procesar_consulta (some "org1") envsLeak).1 = 1
    ∧ deletesFor (procesar_consulta (some "org1") envsLeak).1 "c1" = 0
    ∧ (procesar_consulta (some "org1") envsLeak).2 =
        Except.error
          "Fallo despues de 5 intentos. Ultimo error: Error subiendo archivo"
    ∧ deletesFor (procesar_consulta (some "org1") (fun _ => envSuccess)).1 "c1" = 1
    ∧ (procesar_consulta (some "org1") (fun _ => envSuccess)).2 =
        Except.ok (parsear_respuesta_csv "SOLES,null,A,B,C,D,False,1.00,1.00", 1) := by
  refine ⟨rfl, by decide, by decide, rfl, by decide, rfl⟩

/-- C2, counterexample: with the organization handle unset, `subir_archivo`
does not fail fast — it issues the upload POST with the literal text `None`
interpolated into the URL, and `crear_conversacion_y_enviar_mensaje`
likewise issues its create POST. -/
theorem C2_unset_org_still_calls_network :
    (subir_archivo none
        { fileReadable := true, status := 500, file_uuid := none }).1
      = [Event.uploadCall "https://claude.ai/api/None/upload"]
    ∧ (subir_archivo none
        { fileReadable := true, status := 500, file_uuid := none }).1 ≠ []
    ∧ (crear_conversacion_y_enviar_mensaje none
        { createStatus := 403, createUuid := none, sendStatus := 0,
          lines := [], streamEnd := StreamEnd.eof }).1
      = [Event.createCall
          "https://claude.ai/api/organizations/None/chat_conversations"] := by
  refine ⟨rfl, by decide, rfl⟩

/-- C2, amended: with the organization handle unset, processing calls
proceed rather than failing fast: the upload POST is issued against the
URL with `None` interpolated and its result depends only on the response
status, and the conversation-create POST is always the first network call
of `crear_conversacion_y_enviar_mensaje`. -/
theorem C2_unset_org_proceeds (envU : UploadEnv) (envC : ConvEnv)
    (hfile : envU.fileReadable = true) :
    (subir_archivo none envU).1
      = [Event.uploadCall "https://claude.ai/api/None/upload"]
    ∧ (subir_archivo none envU).2
      = (if envU.status = 200 then envU.file_uuid else none)
    ∧ (crear_conversacion_y_enviar_mensaje none envC).1.head?
      = some (Event.createCall
          "https://claude.ai/api/organizations/None/chat_conversations") := by
  refine ⟨?_, ?_, ?_⟩
  · simp only [subir_archivo]
    rw [hfile]
    rfl
  · simp only [subir_archivo]
    rw [hfile]
    rfl
  · simp only [crear_conversacion_y_enviar_mensaje]
    split
    · rfl
    · split
      · rfl
      · split
        · rfl
        · rfl

theorem C2_unset_org_proceeds_witness :
    (subir_archivo none
      { fileReadable := true, status := 500, file_uuid := none }).2 = none := by
  have h := C2_unset_org_proceeds
    { fileReadable := true, status := 500, file_uuid := none }
    { createStatus := 403, createUuid := none, sendStatus := 0,
      lines := [], streamEnd := StreamEnd.eof } rfl
  exact h.2.1.trans (by decide)

/-- Conversation environment of a stream that delivers one text_delta
fragment `abc` and is then interrupted by a read timeout before any
message_stop. -/
def envTimeout : ConvEnv :=
  { createStatus := 201, createUuid := some "c1", sendStatus := 200,
    lines := [Line.delta "text_delta" "abc"],
    streamEnd := StreamEnd.timeoutErr }

/-- C3, counterexample: on a read timeout before message_stop the
accumulated text `abc` is nonempty, yet the function returns None for the
text, discarding it — it does not return the text accumulated so far. -/
theorem C3_timeout_discards_accumulated_text :
    (consumeLines envTimeout.lines "").1 = "abc"
    ∧ (consumeLines envTimeout.lines "").2 = false
    ∧ (crear_conversacion_y_enviar_mensaje (some "org1") envTimeout).2
      = (some "c1", none)
    ∧ (none : Option String) ≠ some "abc" := by
  refine ⟨rfl, rfl, by decide, by decide⟩

/-- C3, amended: after a 201 create and a 200 completion, a read timeout or
connection exception before message_stop returns None for the text (the
accumulated fragments are discarded by the handlers of src/main.py lines
287-292); the accumulated stripped text is returned — when the accumulator
is nonempty — only if message_stop was reached or the stream ended
cleanly. -/
theorem C3_stream_end_behaviour (org : Option String) (env : ConvEnv)
    (hc : env.createStatus = 201) (hs : env.sendStatus = 200) :
    ((consumeLines env.lines "").2 = false → env.streamEnd ≠ StreamEnd.eof →
      (crear_conversacion_y_enviar_mensaje org env).2.2 = none)
    ∧ ((consumeLines env.lines "").2 = true ∨ env.streamEnd = StreamEnd.eof →
      (crear_conversacion_y_enviar_mensaje org env).2.2 =
        (if (consumeLines env.lines "").1 = "" then none
         else some (pyStrip (consumeLines env.lines "").1))) := by
  by_cases hOr : (consumeLines env.lines "").2 = true
      ∨ env.streamEnd = StreamEnd.eof
  · constructor
    · intro h1 h2
      rcases hOr with hx | hx
      · rw [h1] at hx
        cases hx
      · exact absurd hx h2
    · intro _
      simp [crear_conversacion_y_enviar_mensaje, hc, hs, hOr]
  · constructor
    · intro _ _
      simp [crear_conversacion_y_enviar_mensaje, hc, hs, hOr]
    · intro hx
      exact absurd hx hOr

theorem C3_stream_end_behaviour_witness :
    (crear_conversacion_y_enviar_mensaje (some "org1")
      { createStatus := 201, createUuid := some "c9", sendStatus := 200,
        lines := [Line.delta "text_delta" "x"],
        streamEnd := StreamEnd.connectionErr }).2.2 = none :=
  (C3_stream_end_behaviour (some "org1")
    { createStatus := 201, createUuid := some "c9", sendStatus := 200,
      lines := [Line.delta "text_delta" "x"],
      streamEnd := StreamEnd.connectionErr } rfl rfl).1 (by decide) (by decide)

end Cotizacion
